import Mathlib

/-!
Shallow embedding of the Fairway Foods backend (`src/server.py`) and proofs
about its authentication, account-lifecycle and CRUD behaviour.

Modelling conventions:
* Mongo collections are Lean lists in insertion order; `find_one` is
  `List.find?`, `update_one` updates the first matching element,
  `delete_one` removes it.
* Monetary amounts (`price`, `totalAmount`) are modelled as `Int`: no
  property below depends on floating-point behaviour.
* `datetime.utcnow()` values are minutes as `Nat`, threaded as an explicit
  `now` parameter.
* bcrypt / passlib digest verification cannot be computed here, so the two
  checkers are oracle parameters returning `Option Bool`: `some b` is a
  normal return, `none` is a raised exception (the server catches those
  with a bare `except: pass`).
* `bson.ObjectId(s)` raises `InvalidId` unless `s` is a 24-character hex
  string; an uncaught exception surfaces as an HTTP 500, modelled by
  `serverError`.
* Outbound e-mail / WhatsApp calls mutate nothing in the store and are
  independently caught by the server, so they are dropped from the state
  transition; only the `email_sent` boolean that `forgot_password` branches
  on is kept, as an explicit parameter.
-/

namespace FairwayFoods

/-- A BSON ObjectId as stored in the `_id` field of every document. -/
structure ObjectId where
  hex : String
deriving DecidableEq, Repr

/-- Python `str(oid)`: the hex string of the ObjectId. -/
def objectIdStr (o : ObjectId) : String := o.hex

/-- Python `==` between a `str` value and a bson `ObjectId` value: neither
class recognises the other in `__eq__`, so the comparison is always `False`.
(`delete_user` compares `str(target_user["_id"])` with `user["_id"]`, an
`ObjectId`, so its self-deletion check can never fire.) -/
def pyStrEqObjectId (_s : String) (_o : ObjectId) : Bool := false

/-- Hex-digit test for `bson.ObjectId` validity. -/
def isHexChar (c : Char) : Bool :=
  c.isDigit || (97 ≤ c.toNat && c.toNat ≤ 102) || (65 ≤ c.toNat && c.toNat ≤ 70)

/-- Validity domain: `bson.ObjectId(s)` succeeds exactly on 24-character hex strings. -/
def isValidObjectIdHex (s : String) : Bool :=
  s.length == 24 && s.toList.all isHexChar

/-- Python truthiness of an optional string field read with `dict.get`:
`None` and `""` are falsy. -/
def pyTruthy : Option String → Bool
  | none => false
  | some s => !s.isEmpty

/-- Python `str.lower()` on one character, restricted to ASCII (the
e-mail addresses handled here; Unicode case folding is not modelled). -/
def lowerChar (c : Char) : Char :=
  if 65 ≤ c.toNat && c.toNat ≤ 90 then Char.ofNat (c.toNat + 32) else c

/-- Python `str.lower()`. -/
def pyLower (s : String) : String := ⟨s.data.map lowerChar⟩

/-- Whitespace stripped by Python `str.strip()`. -/
def isSpaceChar (c : Char) : Bool :=
  c == ' ' || c == '\t' || c == '\n' || c == '\r'

/-- Python `str.strip()`: drop leading and trailing whitespace. -/
def pyStrip (s : String) : String :=
  ⟨((s.data.dropWhile isSpaceChar).reverse.dropWhile isSpaceChar).reverse⟩

/-- Case-insensitive string equality, modelling the Mongo query
`{"$regex": "^<email>$", "$options": "i"}` used by the password-reset
endpoints (regex metacharacters inside the e-mail are not modelled; no
property below depends on them). -/
def ciEq (a b : String) : Bool := pyLower a == pyLower b

/-- An HTTP error response raised via `HTTPException` (or an uncaught
exception surfacing as a 500). -/
structure HttpError where
  status : Nat
  detail : String
deriving DecidableEq, Repr

/-- Uncaught exception inside a handler: FastAPI's generic 500 response. -/
def serverError : HttpError := ⟨500, "Internal Server Error"⟩

/-- A document of the `users` collection.  `password` holds the bcrypt
digest, `hashed_password` the legacy passlib digest of pre-migration
records; either may be absent.  `status` is absent on legacy/admin-created
records. -/
structure UserRec where
  id : ObjectId
  email : String
  password : Option String := none
  hashed_password : Option String := none
  name : String
  role : String
  status : Option String := none
  courseIds : List String := []
  defaultCourseId : Option String := none
  resetCode : Option String := none
  resetCodeExpires : Option Nat := none
  displayName : Option String := none
  phone : Option String := none
  membershipNumber : Option String := none
  createdAt : Nat := 0
deriving DecidableEq, Repr

/-- A document of the `golfcourses` collection. -/
structure CourseRec where
  id : ObjectId
  name : String
  location : String
  description : Option String := none
  active : Bool := true
  createdAt : Nat := 0
deriving DecidableEq, Repr

/-- A document of the `menuitems` collection. -/
structure MenuItemRec where
  id : ObjectId
  name : String
  description : String
  price : Int
  category : String
  courseId : String
  image : Option String := none
  available : Bool := true
  createdAt : Nat := 0
deriving DecidableEq, Repr

/-- One line of an order (`OrderItem` model). -/
structure OrderItemRec where
  menuItemId : String
  name : String
  price : Int
  quantity : Int
deriving DecidableEq, Repr

/-- A document of the `orders` collection. -/
structure OrderRec where
  id : ObjectId
  items : List OrderItemRec
  customerName : String
  teeOffTime : String
  totalAmount : Int
  courseId : String
  status : String
  createdAt : Nat := 0
  userId : Option String := none
deriving DecidableEq, Repr

/-- Mongo `update_one`: rewrite the first element satisfying `p`. -/
def updateFirst (p : α → Bool) (f : α → α) : List α → List α
  | [] => []
  | x :: xs => if p x then f x :: xs else x :: updateFirst p f xs

/-- Mongo `delete_one`: remove the first element satisfying `p`. -/
def removeFirst (p : α → Bool) : List α → List α
  | [] => []
  | x :: xs => if p x then xs else x :: removeFirst p xs

/-- The two digest checkers used by `login`: `bcrypt_checkpw` backs
`verify_password` on the `password` field, `passlib_verify` backs
`pwd_context.verify` on the legacy `hashed_password` field.  `none`
models a raised exception. -/
structure HashOracle where
  bcrypt_checkpw : String → String → Option Bool
  passlib_verify : String → String → Option Bool

/-- Payload of the JWT produced by `create_access_token`; signature and
expiry stamp are opaque to every property below. -/
structure Token where
  user_id : String
deriving DecidableEq, Repr

/-- Model of `create_access_token({"user_id": ...})`. -/
def create_access_token (userId : String) : Token := ⟨userId⟩

/-- The `defaultCourse` sub-object of the login response. -/
structure DefaultCourseInfo where
  id : String
  name : String
deriving DecidableEq, Repr

/-- The `profile` sub-object of the login response. -/
structure ProfileInfo where
  displayName : String
  phone : String
  membershipNumber : String
deriving DecidableEq, Repr

/-- The `user` summary of the login response. -/
structure UserSummary where
  id : String
  email : String
  name : String
  role : String
  courseIds : List String
  defaultCourseId : Option String
  defaultCourse : Option DefaultCourseInfo
  profile : ProfileInfo
deriving DecidableEq, Repr

/-- The full login response body. -/
structure LoginResponse where
  token : Token
  user : UserSummary
deriving DecidableEq, Repr

/-- Password check of `login` (server.py lines 458-476): first bcrypt
against the `password` field, then — only if that did not validate — the
legacy passlib scheme against `hashed_password`; exceptions from either
checker are swallowed and count as a failed attempt. -/
def loginPasswordValid (σ : HashOracle) (u : UserRec) (pw : String) : Bool :=
  let v1 : Bool :=
    if pyTruthy u.password then
      match u.password with
      | some h => (σ.bcrypt_checkpw pw h).getD false
      | none => false
    else false
  if v1 then true
  else
    if pyTruthy u.hashed_password then
      match u.hashed_password with
      | some h => (σ.passlib_verify pw h).getD false
      | none => false
    else false

/-- Endpoint `POST /api/auth/login` (server.py lines 452-515). -/
def login (σ : HashOracle) (users : List UserRec) (courses : List CourseRec)
    (email pw : String) : Except HttpError LoginResponse :=
  match users.find? (fun u => u.email == email) with
  | none => .error ⟨401, "Invalid credentials"⟩
  | some user =>
    if !loginPasswordValid σ user pw then
      .error ⟨401, "Invalid credentials"⟩
    else if user.status == some "pending" then
      .error ⟨403, "Your account is pending approval by the administrator"⟩
    else if user.status == some "rejected" then
      .error ⟨403, "Your account registration was not approved"⟩
    else
      let token := create_access_token (objectIdStr user.id)
      let dcRes : Except HttpError (Option DefaultCourseInfo) :=
        match user.defaultCourseId with
        | some dcid =>
          if dcid.isEmpty then .ok none
          else if !isValidObjectIdHex dcid then .error serverError
          else
            match courses.find? (fun c => objectIdStr c.id == dcid && c.active) with
            | some c => .ok (some ⟨objectIdStr c.id, c.name⟩)
            | none => .ok none
        | none => .ok none
      match dcRes with
      | .error e => .error e
      | .ok dc =>
        .ok ⟨token,
          ⟨objectIdStr user.id, user.email, user.name, user.role,
           user.courseIds, user.defaultCourseId, dc,
           ⟨user.displayName.getD user.name, user.phone.getD "",
            user.membershipNumber.getD ""⟩⟩⟩

/-- Request body of `POST /api/auth/register` (pydantic `UserRegister`). -/
structure UserRegister where
  email : String
  password : String
  name : String
  courseId : Option String := none
deriving DecidableEq, Repr

/-- Success body of `POST /api/auth/register`. -/
structure RegisterResponse where
  message : String
  userId : String
  status : String
deriving DecidableEq, Repr

/-- The user document inserted by `register`.  `courseIds` is
`[courseId] if courseId else []`; `defaultCourseId` is the submitted
`courseId` verbatim (also when falsy). -/
def registeredUser (hashFn : String → String) (now : Nat) (newId : ObjectId)
    (input : UserRegister) : UserRec :=
  { id := newId
    email := input.email
    password := some (hashFn input.password)
    name := input.name
    role := "user"
    status := some "pending"
    courseIds :=
      match input.courseId with
      | some cid => if cid.isEmpty then [] else [cid]
      | none => []
    defaultCourseId := input.courseId
    createdAt := now }

/-- Endpoint `POST /api/auth/register` (server.py lines 407-450).  `hashFn` stands
for `hash_password` (bcrypt with a fresh salt), `newId` for the ObjectId
Mongo assigns on insert.  The duplicate check is the exact-match query
`find_one({"email": user_data.email})`. -/
def register (hashFn : String → String) (now : Nat) (newId : ObjectId)
    (users : List UserRec) (input : UserRegister) :
    Except HttpError RegisterResponse × List UserRec :=
  if (users.find? (fun u => u.email == input.email)).isSome then
    (.error ⟨400, "Email already registered"⟩, users)
  else
    (.ok ⟨"Registration submitted. Your account is pending approval by the administrator.",
          objectIdStr newId, "pending"⟩,
     users ++ [registeredUser hashFn now newId input])

/-- Response body of `POST /api/auth/forgot-password`.  The three bodies
the handler can return carry different key sets; an absent JSON key is
`none`. -/
structure ForgotResponse where
  message : String
  email_sent : Option Bool := none
  reset_code : Option String := none
deriving DecidableEq, Repr

/-- Endpoint `POST /api/auth/forgot-password` (server.py lines 522-565).
`emailDelivered` is the boolean returned by `send_password_reset_email`,
`genCode` the 6-digit code drawn by `generate_reset_code`. -/
def forgot_password (emailDelivered : Bool) (genCode : String) (now : Nat)
    (users : List UserRec) (rawEmail : String) :
    Except HttpError ForgotResponse × List UserRec :=
  let email := pyStrip rawEmail
  if email.isEmpty then (.error ⟨400, "Email is required"⟩, users)
  else
    match users.find? (fun u => ciEq u.email email) with
    | none =>
      (.ok { message := "If an account with this email exists, a reset code has been sent" },
       users)
    | some user =>
      let users2 := updateFirst (fun u => u.id == user.id)
        (fun u => { u with resetCode := some genCode,
                           resetCodeExpires := some (now + 15) }) users
      if emailDelivered then
        (.ok { message := "Reset code sent to your email", email_sent := some true }, users2)
      else
        (.ok { message := "Email service not configured. Use this code to reset your password.",
               email_sent := some false, reset_code := some genCode }, users2)

/-- Endpoint `POST /api/auth/verify-reset-code` (server.py lines 567-590); read-only,
so only the response is returned.  `.ok true` is the `{"verified": true}`
body. -/
def verify_reset_code (now : Nat) (users : List UserRec)
    (rawEmail rawCode : String) : Except HttpError Bool :=
  let email := pyStrip (pyLower rawEmail)
  let code := pyStrip rawCode
  if email.isEmpty || code.isEmpty then
    .error ⟨400, "Email and code are required"⟩
  else
    match users.find? (fun u => u.email == email) with
    | none => .error ⟨400, "Invalid email or code"⟩
    | some user =>
      if !pyTruthy user.resetCode || user.resetCode != some code then
        .error ⟨400, "Invalid reset code"⟩
      else
        match user.resetCodeExpires with
        | none => .error ⟨400, "Reset code has expired"⟩
        | some exp =>
          if now > exp then .error ⟨400, "Reset code has expired"⟩
          else .ok true

/-- Endpoint `POST /api/auth/reset-password` (server.py lines 592-636).  On success
the new bcrypt digest is stored in `password` and the reset code and its
expiry are `$unset`. -/
def reset_password (hashFn : String → String) (now : Nat)
    (users : List UserRec) (rawEmail rawCode newPassword : String) :
    Except HttpError String × List UserRec :=
  let email := pyStrip rawEmail
  let code := pyStrip rawCode
  if email.isEmpty || code.isEmpty || newPassword.isEmpty then
    (.error ⟨400, "Email, code, and new password are required"⟩, users)
  else if newPassword.length < 6 then
    (.error ⟨400, "Password must be at least 6 characters"⟩, users)
  else
    match users.find? (fun u => ciEq u.email email) with
    | none => (.error ⟨400, "Invalid request"⟩, users)
    | some user =>
      if !pyTruthy user.resetCode || user.resetCode != some code then
        (.error ⟨400, "Invalid reset code"⟩, users)
      else
        match user.resetCodeExpires with
        | none => (.error ⟨400, "Reset code has expired"⟩, users)
        | some exp =>
          if now > exp then (.error ⟨400, "Reset code has expired"⟩, users)
          else
            (.ok "Password reset successfully",
             updateFirst (fun u => u.id == user.id)
               (fun u => { u with password := some (hashFn newPassword),
                                  resetCode := none,
                                  resetCodeExpires := none }) users)

/-- Body of `POST /api/menu` (pydantic `MenuItem`). -/
structure MenuItemInput where
  name : String
  description : String
  price : Int
  category : String
  courseId : String
  image : Option String := none
  available : Bool := true
deriving DecidableEq, Repr

/-- Body of `PUT /api/menu/{item_id}` (pydantic `MenuItemUpdate`); every
field optional. -/
structure MenuItemUpdate where
  name : Option String := none
  description : Option String := none
  price : Option Int := none
  category : Option String := none
  image : Option String := none
  available : Option Bool := none
deriving DecidableEq, Repr

/-- Check that the `update_data` of `update_menu_item` is empty: every optional field is
`None`. -/
def menuItemUpdateIsEmpty (u : MenuItemUpdate) : Bool :=
  u.name.isNone && u.description.isNone && u.price.isNone &&
  u.category.isNone && u.image.isNone && u.available.isNone

/-- Apply the non-`None` fields of a `MenuItemUpdate` (`$set` of the
update dict). -/
def applyMenuItemUpdate (u : MenuItemUpdate) (m : MenuItemRec) : MenuItemRec :=
  { m with
    name := u.name.getD m.name
    description := u.description.getD m.description
    price := u.price.getD m.price
    category := u.category.getD m.category
    image := match u.image with | some i => some i | none => m.image
    available := u.available.getD m.available }

/-- Dependency `get_admin_or_super_user`: 403 unless the caller's role is
`admin` or `superuser`. -/
def adminOrSuperGuardFails (caller : UserRec) : Bool :=
  caller.role != "admin" && caller.role != "superuser"

/-- The menu document inserted by `create_menu_item`. -/
def newMenuItemRec (item : MenuItemInput) (now : Nat) (newId : ObjectId) :
    MenuItemRec :=
  { id := newId, name := item.name, description := item.description,
    price := item.price, category := item.category, courseId := item.courseId,
    image := item.image, available := item.available, createdAt := now }

/-- Endpoint `POST /api/menu` (server.py lines 909-922): admins may only create
items for a course in their own `courseIds`; superusers are unrestricted. -/
def create_menu_item (caller : UserRec) (item : MenuItemInput) (now : Nat)
    (newId : ObjectId) (menu : List MenuItemRec) :
    Except HttpError MenuItemRec × List MenuItemRec :=
  if adminOrSuperGuardFails caller then
    (.error ⟨403, "Admin or Super user access required"⟩, menu)
  else if caller.role == "admin" && !caller.courseIds.contains item.courseId then
    (.error ⟨403, "You don\x27t have access to this course"⟩, menu)
  else
    let itemRec := newMenuItemRec item now newId
    (.ok itemRec, menu ++ [itemRec])

/-- Endpoint `PUT /api/menu/{item_id}` (server.py lines 924-948): the admin scope
check is against the *existing* item's course. -/
def update_menu_item (caller : UserRec) (itemId : String)
    (upd : MenuItemUpdate) (menu : List MenuItemRec) :
    Except HttpError MenuItemRec × List MenuItemRec :=
  if adminOrSuperGuardFails caller then
    (.error ⟨403, "Admin or Super user access required"⟩, menu)
  else if !isValidObjectIdHex itemId then (.error serverError, menu)
  else
    match menu.find? (fun m => objectIdStr m.id == itemId) with
    | none => (.error ⟨404, "Menu item not found"⟩, menu)
    | some existing =>
      if caller.role == "admin" && !caller.courseIds.contains existing.courseId then
        (.error ⟨403, "You don\x27t have access to this course"⟩, menu)
      else if menuItemUpdateIsEmpty upd then
        (.error ⟨400, "No data to update"⟩, menu)
      else
        let menu2 := updateFirst (fun m => objectIdStr m.id == itemId)
          (applyMenuItemUpdate upd) menu
        match menu2.find? (fun m => objectIdStr m.id == itemId) with
        | some updated => (.ok updated, menu2)
        | none => (.error serverError, menu2)

/-- Endpoint `DELETE /api/menu/{item_id}` (server.py lines 950-963). -/
def delete_menu_item (caller : UserRec) (itemId : String)
    (menu : List MenuItemRec) : Except HttpError String × List MenuItemRec :=
  if adminOrSuperGuardFails caller then
    (.error ⟨403, "Admin or Super user access required"⟩, menu)
  else if !isValidObjectIdHex itemId then (.error serverError, menu)
  else
    match menu.find? (fun m => objectIdStr m.id == itemId) with
    | none => (.error ⟨404, "Menu item not found"⟩, menu)
    | some _existing =>
      if caller.role == "admin" && !caller.courseIds.contains _existing.courseId then
        (.error ⟨403, "You don\x27t have access to this course"⟩, menu)
      else
        (.ok "Menu item deleted successfully",
         removeFirst (fun m => objectIdStr m.id == itemId) menu)

/-- Endpoint `PATCH /api/orders/{order_id}/status` (server.py lines 1047-1081).  The
route declares no authentication dependency, so the embedding takes no
caller; the supplied status string is stored verbatim with no enum check.
The order-ready WhatsApp send is fire-and-forget and store-neutral. -/
def update_order_status (orderId : String) (newStatus : String)
    (orders : List OrderRec) : Except HttpError OrderRec × List OrderRec :=
  if !isValidObjectIdHex orderId then (.error serverError, orders)
  else if (orders.find? (fun o => objectIdStr o.id == orderId)).isNone then
    (.error ⟨404, "Order not found"⟩, orders)
  else
    let orders2 := updateFirst (fun o => objectIdStr o.id == orderId)
      (fun o => { o with status := newStatus }) orders
    match orders2.find? (fun o => objectIdStr o.id == orderId) with
    | some updated => (.ok updated, orders2)
    | none => (.error serverError, orders2)

/-- Dependency `get_super_user`: 403 unless the caller's role is
`superuser`. -/
def superGuardFails (caller : UserRec) : Bool :=
  caller.role != "superuser"

/-- Endpoint `PUT /api/users/{user_id}/default-course` (server.py lines 1104-1131).
`dcid?` is `data.get("defaultCourseId")`; a falsy value clears the default
course with no validation, a truthy one must name an existing course the
target user is assigned to. -/
def set_default_course (caller : UserRec) (tid : String)
    (dcid? : Option String) (courses : List CourseRec)
    (users : List UserRec) : Except HttpError String × List UserRec :=
  if superGuardFails caller then
    (.error ⟨403, "Super user access required"⟩, users)
  else if pyTruthy dcid? then
    match dcid? with
    | none => (.error serverError, users)
    | some dcid =>
      if !isValidObjectIdHex dcid then (.error serverError, users)
      else
        match courses.find? (fun c => objectIdStr c.id == dcid) with
        | none => (.error ⟨400, "Course not found"⟩, users)
        | some _ =>
          if !isValidObjectIdHex tid then (.error serverError, users)
          else
            match users.find? (fun u => objectIdStr u.id == tid) with
            | none => (.error ⟨404, "User not found"⟩, users)
            | some target =>
              if !target.courseIds.contains dcid then
                (.error ⟨400, "User is not assigned to this course"⟩, users)
              else
                (.ok "Default course updated successfully",
                 updateFirst (fun u => objectIdStr u.id == tid)
                   (fun u => { u with defaultCourseId := dcid? }) users)
  else if !isValidObjectIdHex tid then (.error serverError, users)
  else
    (.ok "Default course updated successfully",
     updateFirst (fun u => objectIdStr u.id == tid)
       (fun u => { u with defaultCourseId := dcid? }) users)

/-- The five legal roles. -/
def validRoles : List String := ["user", "admin", "kitchen", "cashier", "superuser"]

/-- Role check `role_data.get("role") in [...]`: an absent role is not in the list. -/
def roleOk : Option String → Bool
  | some r => validRoles.contains r
  | none => false

/-- Endpoint `PUT /api/users/{user_id}/role` (server.py lines 1176-1190): the new
role must be one of the five enum values. -/
def update_user_role (caller : UserRec) (tid : String)
    (newRole : Option String) (users : List UserRec) :
    Except HttpError String × List UserRec :=
  if superGuardFails caller then
    (.error ⟨403, "Super user access required"⟩, users)
  else if !roleOk newRole then (.error ⟨400, "Invalid role"⟩, users)
  else if !isValidObjectIdHex tid then (.error serverError, users)
  else if (users.find? (fun u => objectIdStr u.id == tid)).isNone then
    (.error ⟨404, "User not found"⟩, users)
  else
    (.ok "Role updated successfully",
     updateFirst (fun u => objectIdStr u.id == tid)
       (fun u => { u with role := (newRole.getD u.role) }) users)

/-- Body of `PUT /api/users/{user_id}`: an arbitrary dict; `none` models an
absent key. -/
structure UserUpdate where
  name : Option String := none
  email : Option String := none
  role : Option String := none
  courseIds : Option (List String) := none
  status : Option String := none
  password : Option String := none
deriving DecidableEq, Repr

/-- The `$set` applied by `update_user`: each present key overwrites the
field verbatim — including `role`, with no enum check; a falsy password is
skipped. -/
def applyUserUpdate (hashFn : String → String) (d : UserUpdate)
    (u : UserRec) : UserRec :=
  let u := match d.name with | some n => { u with name := n } | none => u
  let u := match d.email with | some e => { u with email := e } | none => u
  let u := match d.role with | some r => { u with role := r } | none => u
  let u := match d.courseIds with | some cs => { u with courseIds := cs } | none => u
  let u := match d.status with | some s => { u with status := some s } | none => u
  match d.password with
  | some p => if p.isEmpty then u else { u with password := some (hashFn p) }
  | none => u

/-- Endpoint `PUT /api/users/{user_id}` (server.py lines 1267-1300). -/
def update_user (hashFn : String → String) (caller : UserRec) (tid : String)
    (data : UserUpdate) (users : List UserRec) :
    Except HttpError String × List UserRec :=
  if superGuardFails caller then
    (.error ⟨403, "Super user access required"⟩, users)
  else if !isValidObjectIdHex tid then (.error serverError, users)
  else
    match users.find? (fun u => objectIdStr u.id == tid) with
    | none => (.error ⟨404, "User not found"⟩, users)
    | some _target =>
      let emailConflict : Bool :=
        match data.email with
        | some e => (users.find? (fun u => u.email == e && objectIdStr u.id != tid)).isSome
        | none => false
      if emailConflict then (.error ⟨400, "Email already in use"⟩, users)
      else
        (.ok "User updated successfully",
         updateFirst (fun u => objectIdStr u.id == tid)
           (applyUserUpdate hashFn data) users)

/-- Endpoint `DELETE /api/users/{user_id}` (server.py lines 1245-1265).  The
self-deletion check compares `str(target_user["_id"])` (a `str`) with
`user["_id"]` (an `ObjectId`), which in Python is always `False`; the
superuser check still blocks deletion of any superuser, the caller's own
record included. -/
def delete_user (caller : UserRec) (tid : String) (users : List UserRec) :
    Except HttpError String × List UserRec :=
  if superGuardFails caller then
    (.error ⟨403, "Super user access required"⟩, users)
  else if !isValidObjectIdHex tid then (.error serverError, users)
  else
    match users.find? (fun u => objectIdStr u.id == tid) with
    | none => (.error ⟨404, "User not found"⟩, users)
    | some target =>
      if pyStrEqObjectId (objectIdStr target.id) caller.id then
        (.error ⟨400, "Cannot delete your own account"⟩, users)
      else if target.role == "superuser" then
        (.error ⟨400, "Cannot delete superuser accounts"⟩, users)
      else
        (.ok "User deleted successfully",
         removeFirst (fun u => objectIdStr u.id == tid) users)

/-! ### Concrete sample data used by the evaluation theorems -/

def oidA : ObjectId := ⟨"0123456789abcdef01234567"⟩
def oidB : ObjectId := ⟨"89abcdef0123456789abcdef"⟩
def oidC : ObjectId := ⟨"456789abcdef0123456789ab"⟩
def oidD : ObjectId := ⟨"fedcba9876543210fedcba98"⟩

/-- A computable stand-in for the two digest checkers: a digest matches
exactly when it is the plaintext tagged with the scheme marker. -/
def sampleOracle : HashOracle :=
  ⟨fun p h => some (h == "bc;" ++ p), fun p h => some (h == "pl;" ++ p)⟩

/-- A computable stand-in for `hash_password`. -/
def sampleHash (p : String) : String := "bc;" ++ p

def alice : UserRec :=
  { id := oidA, email := "alice@club.com", password := some "bc;pw1",
    name := "Alice", role := "user", status := some "approved" }

/-- A pre-migration record: no `password` field, only a legacy passlib
digest in `hashed_password`. -/
def bob : UserRec :=
  { id := oidB, email := "bob@club.com", hashed_password := some "pl;pw2",
    name := "Bob", role := "user", status := some "approved" }

/-- Course identifiers (hex strings) used by the sample data. -/
def courseIdA : String := "aaaaaaaaaaaaaaaaaaaaaaaa"
def courseIdB : String := "bbbbbbbbbbbbbbbbbbbbbbbb"

/-- An admin assigned only to course A. -/
def carol : UserRec :=
  { id := oidC, email := "carol@club.com", password := some "bc;pw3",
    name := "Carol", role := "admin", status := some "approved",
    courseIds := [courseIdA] }

/-- A superuser. -/
def dave : UserRec :=
  { id := oidD, email := "dave@club.com", password := some "bc;pw4",
    name := "Dave", role := "superuser", status := some "approved" }

def oidE : ObjectId := ⟨"cccccccccccccccccccccccc"⟩

/-- A menu item that belongs to course B. -/
def burger : MenuItemRec :=
  { id := oidE, name := "Burger", description := "Beef burger", price := 45,
    category := "Food", courseId := courseIdB }

/-- A creation request for a course-B menu item. -/
def burgerInput : MenuItemInput :=
  { name := "Burger", description := "Beef burger", price := 45,
    category := "Food", courseId := courseIdB }

def oidF : ObjectId := ⟨"dddddddddddddddddddddddd"⟩

/-- A pending guest order. -/
def sampleOrder : OrderRec :=
  { id := oidF,
    items := [{ menuItemId := "cccccccccccccccccccccccc", name := "Burger",
                price := 45, quantity := 1 }],
    customerName := "Walk-in", teeOffTime := "10:30", totalAmount := 45,
    courseId := courseIdA, status := "pending" }

/-- A user holding an active password-reset code. -/
def erin : UserRec :=
  { id := ⟨"eeeeeeeeeeeeeeeeeeeeeeee"⟩, email := "erin@club.com",
    password := some "bc;old1", name := "Erin", role := "user",
    status := some "approved", resetCode := some "123456",
    resetCodeExpires := some 100 }

/-- Erin's record after a successful password reset: new digest stored,
reset code and expiry `$unset`. -/
def erinAfter : UserRec :=
  { erin with
    password := some "bc;newpw77"
    resetCode := none
    resetCodeExpires := none }

/-- Course A as a stored document. -/
def courseA : CourseRec :=
  { id := ⟨courseIdA⟩, name := "Pine Valley", location := "North" }

/-- A regular user assigned to course A. -/
def frank : UserRec :=
  { id := ⟨"ffffffffffffffffffffffff"⟩, email := "frank@club.com",
    password := some "bc;pw6", name := "Frank", role := "user",
    status := some "approved", courseIds := [courseIdA] }

/-! ### Helper lemmas -/

/-- Mongo `update_one` followed by `find_one` with the same key-preserving
predicate yields the updated document. -/
theorem find?_updateFirst (p : α → Bool) (f : α → α)
    (hpf : ∀ x, p x = true → p (f x) = true) (l : List α) :
    (updateFirst p f l).find? p = (l.find? p).map f := by
  induction l with
  | nil => rfl
  | cons x xs ih =>
    by_cases hx : p x = true
    · simp [updateFirst, hx, List.find?_cons, hpf x hx]
    · have hx' : p x = false := by simpa using hx
      simp [updateFirst, hx', List.find?_cons, ih]

/-- Store invariant used by the login properties: the `status` field, when
present, is one of the three lifecycle states. -/
def statusWellFormed (u : UserRec) : Prop :=
  u.status = none ∨ u.status = some "approved" ∨
  u.status = some "pending" ∨ u.status = some "rejected"

/-- Store invariant used by the login properties: a truthy
`defaultCourseId` is a valid ObjectId hex string (otherwise the
default-course lookup inside `login` raises `InvalidId`). -/
def defaultCourseWellFormed (u : UserRec) : Bool :=
  match u.defaultCourseId with
  | none => true
  | some d => d.isEmpty || isValidObjectIdHex d

/-- A login attempt whose found user validates and is neither pending nor
rejected succeeds. -/
theorem login_ok_of (σ : HashOracle) (users : List UserRec)
    (courses : List CourseRec) (email pw : String) (u : UserRec)
    (hu : users.find? (fun v => v.email == email) = some u)
    (hpv : loginPasswordValid σ u pw = true)
    (hpend : u.status ≠ some "pending") (hrej : u.status ≠ some "rejected")
    (hdc : defaultCourseWellFormed u = true) :
    ∃ r, login σ users courses email pw = .ok r := by
  have h1 : (u.status == some "pending") = false := beq_eq_false_iff_ne.mpr hpend
  have h2 : (u.status == some "rejected") = false := beq_eq_false_iff_ne.mpr hrej
  rcases hd : u.defaultCourseId with _ | d
  · simp [login, hu, hpv, h1, h2, hd]
  · by_cases hde : d.isEmpty = true
    · simp [login, hu, hpv, h1, h2, hd, hde]
    · have hvalid : isValidObjectIdHex d = true := by
        have := hdc
        simp [defaultCourseWellFormed, hd, hde] at this
        exact this
      rcases hc : courses.find? (fun c => objectIdStr c.id == d && c.active) with _ | c
      · simp [login, hu, hpv, h1, h2, hd, hde, hvalid, hc]
      · simp [login, hu, hpv, h1, h2, hd, hde, hvalid, hc]

/-! ### C1: login succeeds iff password verifies and status is approved -/

/-- C1.  For a registered user (the record the login lookup finds, with a
well-formed status and default-course reference): login succeeds iff the
submitted password verifies and the status is approved (an absent status
counts as approved); a failed verification or an unknown e-mail yields the
401 invalid-credentials error, a pending status the 403 pending-approval
error, a rejected status the 403 not-approved error, and the three error
responses are pairwise distinct. -/
theorem login_approval_iff (σ : HashOracle) (users : List UserRec)
    (courses : List CourseRec) (email pw : String) (u : UserRec)
    (hu : users.find? (fun v => v.email == email) = some u)
    (hst : statusWellFormed u)
    (hdc : defaultCourseWellFormed u = true) :
    ((∃ r, login σ users courses email pw = .ok r) ↔
      (loginPasswordValid σ u pw = true ∧
        (u.status = none ∨ u.status = some "approved")))
    ∧ (loginPasswordValid σ u pw = false →
        login σ users courses email pw = .error ⟨401, "Invalid credentials"⟩)
    ∧ (loginPasswordValid σ u pw = true → u.status = some "pending" →
        login σ users courses email pw =
          .error ⟨403, "Your account is pending approval by the administrator"⟩)
    ∧ (loginPasswordValid σ u pw = true → u.status = some "rejected" →
        login σ users courses email pw =
          .error ⟨403, "Your account registration was not approved"⟩)
    ∧ (∀ users2 : List UserRec,
        users2.find? (fun v => v.email == email) = none →
        login σ users2 courses email pw = .error ⟨401, "Invalid credentials"⟩)
    ∧ ((⟨401, "Invalid credentials"⟩ : HttpError) ≠
         ⟨403, "Your account is pending approval by the administrator"⟩
       ∧ (⟨401, "Invalid credentials"⟩ : HttpError) ≠
         ⟨403, "Your account registration was not approved"⟩
       ∧ (⟨403, "Your account is pending approval by the administrator"⟩ : HttpError) ≠
         ⟨403, "Your account registration was not approved"⟩) := by
  have hfail : loginPasswordValid σ u pw = false →
      login σ users courses email pw = .error ⟨401, "Invalid credentials"⟩ := by
    intro h
    simp [login, hu, h]
  have hpendthm : loginPasswordValid σ u pw = true → u.status = some "pending" →
      login σ users courses email pw =
        .error ⟨403, "Your account is pending approval by the administrator"⟩ := by
    intro h hs
    have hb : (u.status == some "pending") = true := by rw [hs]; rfl
    simp [login, hu, h, hb]
  have hrejthm : loginPasswordValid σ u pw = true → u.status = some "rejected" →
      login σ users courses email pw =
        .error ⟨403, "Your account registration was not approved"⟩ := by
    intro h hs
    have hb : (u.status == some "pending") = false := by rw [hs]; rfl
    have hb2 : (u.status == some "rejected") = true := by rw [hs]; rfl
    simp [login, hu, h, hb, hb2]
  refine ⟨⟨?_, ?_⟩, hfail, hpendthm, hrejthm, ?_, by decide, by decide, by decide⟩
  · rintro ⟨r, hr⟩
    cases hpv : loginPasswordValid σ u pw with
    | false => rw [hfail hpv] at hr; cases hr
    | true =>
      refine ⟨rfl, ?_⟩
      rcases hst with hs | hs | hs | hs
      · exact Or.inl hs
      · exact Or.inr hs
      · rw [hpendthm hpv hs] at hr; cases hr
      · rw [hrejthm hpv hs] at hr; cases hr
  · rintro ⟨hpv, hs⟩
    refine login_ok_of σ users courses email pw u hu hpv ?_ ?_ hdc
    · rcases hs with hs | hs <;> simp [hs]
    · rcases hs with hs | hs <;> simp [hs]
  · intro users2 h2
    simp [login, h2]

/-- Witness for C1 at a concrete store: a single approved user with a
bcrypt digest; the login succeeds by the iff of `login_approval_iff`. -/
theorem login_approval_iff_witness :
    [alice].find? (fun v => v.email == "alice@club.com") = some alice
    ∧ statusWellFormed alice
    ∧ defaultCourseWellFormed alice = true
    ∧ (∃ r, login sampleOracle [alice] [] "alice@club.com" "pw1" = .ok r) :=
  ⟨by decide, Or.inr (Or.inl rfl), by decide,
   ((login_approval_iff sampleOracle [alice] [] "alice@club.com" "pw1" alice
       (by decide) (Or.inr (Or.inl rfl)) (by decide)).1).mpr
     ⟨by decide, Or.inr rfl⟩⟩

/-! ### C7: dual-scheme password verification with fallback -/

/-- C7.  Password verification tries bcrypt on the `password` field first
and the legacy passlib scheme on the `hashed_password` field second,
succeeding on the first match: a pre-migration record holding only a
(non-empty) legacy digest that the passlib scheme accepts still validates;
an exception raised by the bcrypt attempt does not prevent the passlib
fallback from being tried; a bcrypt success is independent of the legacy
checker; and an approved legacy-only record logs in successfully. -/
theorem verify_dual_scheme (σ : HashOracle) (u : UserRec) (pw h1 h2 : String) :
    (pyTruthy u.password = false → u.hashed_password = some h2 →
      h2.isEmpty = false → σ.passlib_verify pw h2 = some true →
      loginPasswordValid σ u pw = true)
    ∧ (u.password = some h1 → h1.isEmpty = false →
        σ.bcrypt_checkpw pw h1 = none →
        u.hashed_password = some h2 → h2.isEmpty = false →
        σ.passlib_verify pw h2 = some true →
        loginPasswordValid σ u pw = true)
    ∧ (u.password = some h1 → h1.isEmpty = false →
        σ.bcrypt_checkpw pw h1 = some true →
        ∀ plv : String → String → Option Bool,
          loginPasswordValid ⟨σ.bcrypt_checkpw, plv⟩ u pw = true)
    ∧ (∀ (users : List UserRec) (courses : List CourseRec) (email : String),
        users.find? (fun v => v.email == email) = some u →
        pyTruthy u.password = false →
        u.hashed_password = some h2 → h2.isEmpty = false →
        σ.passlib_verify pw h2 = some true →
        u.status = some "approved" → defaultCourseWellFormed u = true →
        ∃ r, login σ users courses email pw = .ok r) := by
  have part1 : pyTruthy u.password = false → u.hashed_password = some h2 →
      h2.isEmpty = false → σ.passlib_verify pw h2 = some true →
      loginPasswordValid σ u pw = true := by
    intro hp hh hne hv
    simp [loginPasswordValid, hp, hh, hne, hv, pyTruthy]
  refine ⟨part1, ?_, ?_, ?_⟩
  · intro hp hne1 hb hh hne2 hv
    simp [loginPasswordValid, hp, hne1, hb, hh, hne2, hv, pyTruthy]
  · intro hp hne1 hb plv
    simp [loginPasswordValid, hp, hne1, hb, pyTruthy]
  · intro users courses email hu hp hh hne hv hst hdc
    refine login_ok_of σ users courses email pw u hu (part1 hp hh hne hv) ?_ ?_ hdc
    · rw [hst]; simp
    · rw [hst]; simp

/-- Witness for C7: Bob's record carries only the legacy digest; he still
logs in. -/
theorem verify_dual_scheme_witness :
    pyTruthy bob.password = false
    ∧ bob.hashed_password = some "pl;pw2"
    ∧ sampleOracle.passlib_verify "pw2" "pl;pw2" = some true
    ∧ bob.status = some "approved"
    ∧ (∃ r, login sampleOracle [bob] [] "bob@club.com" "pw2" = .ok r) :=
  ⟨by decide, rfl, by decide, rfl,
   (verify_dual_scheme sampleOracle bob "pw2" "h1" "pl;pw2").2.2.2
     [bob] [] "bob@club.com" (by decide) (by decide) rfl (by decide)
     (by decide) rfl (by decide)⟩

/-! ### C2: course-scoped menu mutations -/

/-- C2.  For authenticated menu mutations: an admin whose assigned course
set does not contain the relevant course (the new item's course on create,
the existing item's course on update/delete) gets a 403 and the menu store
is unchanged; a superuser is never course-restricted and the mutation
proceeds for any course. -/
theorem menu_mutation_course_scope
    (caller : UserRec) (menu : List MenuItemRec) (item : MenuItemInput)
    (now : Nat) (newId : ObjectId) (itemId : String) (ex : MenuItemRec)
    (upd : MenuItemUpdate)
    (hvalid : isValidObjectIdHex itemId = true)
    (hfind : menu.find? (fun m => objectIdStr m.id == itemId) = some ex) :
    (caller.role = "admin" → caller.courseIds.contains item.courseId = false →
      create_menu_item caller item now newId menu =
        (.error ⟨403, "You don\x27t have access to this course"⟩, menu))
    ∧ (caller.role = "admin" → caller.courseIds.contains ex.courseId = false →
        update_menu_item caller itemId upd menu =
          (.error ⟨403, "You don\x27t have access to this course"⟩, menu))
    ∧ (caller.role = "admin" → caller.courseIds.contains ex.courseId = false →
        delete_menu_item caller itemId menu =
          (.error ⟨403, "You don\x27t have access to this course"⟩, menu))
    ∧ (caller.role = "superuser" →
        create_menu_item caller item now newId menu =
          (.ok (newMenuItemRec item now newId),
           menu ++ [newMenuItemRec item now newId]))
    ∧ (caller.role = "superuser" → menuItemUpdateIsEmpty upd = false →
        update_menu_item caller itemId upd menu =
          (.ok (applyMenuItemUpdate upd ex),
           updateFirst (fun m => objectIdStr m.id == itemId)
             (applyMenuItemUpdate upd) menu))
    ∧ (caller.role = "superuser" →
        delete_menu_item caller itemId menu =
          (.ok "Menu item deleted successfully",
           removeFirst (fun m => objectIdStr m.id == itemId) menu)) := by
  have hupd : (updateFirst (fun m => objectIdStr m.id == itemId)
        (applyMenuItemUpdate upd) menu).find?
        (fun m => objectIdStr m.id == itemId) =
      some (applyMenuItemUpdate upd ex) := by
    rw [find?_updateFirst (fun m => objectIdStr m.id == itemId)
      (applyMenuItemUpdate upd)
      (fun x hx => by simpa [applyMenuItemUpdate] using hx) menu, hfind]
    rfl
  refine ⟨?_, ?_, ?_, ?_, ?_, ?_⟩
  · intro hrole hscope
    have hs : item.courseId ∉ caller.courseIds := by simpa using hscope
    simp [create_menu_item, adminOrSuperGuardFails, hrole, hs]
  · intro hrole hscope
    have hs : ex.courseId ∉ caller.courseIds := by simpa using hscope
    simp [update_menu_item, adminOrSuperGuardFails, hrole, hvalid, hfind, hs]
  · intro hrole hscope
    have hs : ex.courseId ∉ caller.courseIds := by simpa using hscope
    simp [delete_menu_item, adminOrSuperGuardFails, hrole, hvalid, hfind, hs]
  · intro hrole
    simp [create_menu_item, adminOrSuperGuardFails, hrole]
  · intro hrole hne
    simp [update_menu_item, adminOrSuperGuardFails, hrole, hvalid, hfind, hne, hupd]
  · intro hrole
    simp [delete_menu_item, adminOrSuperGuardFails, hrole, hvalid, hfind]

/-- Witness for C2: Carol (admin, assigned to course A only) cannot update
the course-B burger; Dave (superuser) creates a course-B item freely. -/
theorem menu_mutation_course_scope_witness :
    isValidObjectIdHex "cccccccccccccccccccccccc" = true
    ∧ [burger].find? (fun m => objectIdStr m.id == "cccccccccccccccccccccccc") =
        some burger
    ∧ carol.role = "admin"
    ∧ carol.courseIds.contains burger.courseId = false
    ∧ update_menu_item carol "cccccccccccccccccccccccc"
        { name := some "Cheese burger" } [burger] =
        (.error ⟨403, "You don\x27t have access to this course"⟩, [burger])
    ∧ dave.role = "superuser"
    ∧ create_menu_item dave burgerInput 7 oidA [burger] =
        (.ok (newMenuItemRec burgerInput 7 oidA),
         [burger] ++ [newMenuItemRec burgerInput 7 oidA]) :=
  ⟨by decide, by decide, rfl, by decide,
   (menu_mutation_course_scope carol [burger] burgerInput 7 oidA
      "cccccccccccccccccccccccc" burger { name := some "Cheese burger" }
      (by decide) (by decide)).2.1 rfl (by decide),
   rfl,
   (menu_mutation_course_scope dave [burger] burgerInput 7 oidA
      "cccccccccccccccccccccccc" burger { name := some "Cheese burger" }
      (by decide) (by decide)).2.2.2.1 rfl⟩

/-! ### C10: order-status updates are unauthenticated and verbatim -/

/-- C10.  `PATCH /orders/{id}/status` takes no authentication, role or
course-scope input at all (see the signature of `update_order_status`): for
every existing order and every string `s` — enum member or not — the call
succeeds and the stored status becomes `s` verbatim. -/
theorem order_status_unauthenticated_verbatim
    (orders : List OrderRec) (orderId s : String) (o : OrderRec)
    (hvalid : isValidObjectIdHex orderId = true)
    (hfind : orders.find? (fun v => objectIdStr v.id == orderId) = some o) :
    update_order_status orderId s orders =
      (.ok { o with status := s },
       updateFirst (fun v => objectIdStr v.id == orderId)
         (fun v => { v with status := s }) orders)
    ∧ (updateFirst (fun v => objectIdStr v.id == orderId)
         (fun v => { v with status := s }) orders).find?
         (fun v => objectIdStr v.id == orderId) = some { o with status := s } := by
  have hupd : (updateFirst (fun v => objectIdStr v.id == orderId)
      (fun v => { v with status := s }) orders).find?
      (fun v => objectIdStr v.id == orderId) = some { o with status := s } := by
    rw [find?_updateFirst (fun v => objectIdStr v.id == orderId)
      (fun v => { v with status := s })
      (fun x hx => by simpa using hx) orders, hfind]
    rfl
  exact ⟨by simp [update_order_status, hvalid, hfind, hupd], hupd⟩

/-- Witness for C10: the sample order accepts the non-enum status
`"banana"` with no caller in sight. -/
theorem order_status_unauthenticated_verbatim_witness :
    isValidObjectIdHex "dddddddddddddddddddddddd" = true
    ∧ [sampleOrder].find?
        (fun v => objectIdStr v.id == "dddddddddddddddddddddddd") = some sampleOrder
    ∧ update_order_status "dddddddddddddddddddddddd" "banana" [sampleOrder] =
        (.ok { sampleOrder with status := "banana" },
         updateFirst (fun v => objectIdStr v.id == "dddddddddddddddddddddddd")
           (fun v => { v with status := "banana" }) [sampleOrder]) :=
  ⟨by decide, by decide,
   (order_status_unauthenticated_verbatim [sampleOrder]
      "dddddddddddddddddddddddd" "banana" sampleOrder
      (by decide) (by decide)).1⟩

/-! ### C4: a reset code is accepted at most once -/

/-- C4.  A successful `reset-password` call clears the consumed code (and
its expiry) from the user record, and against a record whose reset code is
cleared every later `verify-reset-code` or `reset-password` call — with any
code, the consumed one included — fails with a 400 error. -/
theorem reset_code_single_use
    (hashFn : String → String) (now now2 now3 : Nat)
    (users users' : List UserRec) (email code np msg : String)
    (h : reset_password hashFn now users email code np = (.ok msg, users')) :
    (∀ u, users.find? (fun v => ciEq v.email (pyStrip email)) = some u →
      ∀ w, users'.find? (fun v => v.id == u.id) = some w →
        w.resetCode = none ∧ w.resetCodeExpires = none ∧
        w.password = some (hashFn np))
    ∧ (∀ (S : List UserRec) (e c : String) (w : UserRec),
        S.find? (fun v => v.email == pyStrip (pyLower e)) = some w →
        w.resetCode = none →
        ∃ d, verify_reset_code now2 S e c = .error ⟨400, d⟩)
    ∧ (∀ (S : List UserRec) (e c npw : String) (w : UserRec),
        S.find? (fun v => ciEq v.email (pyStrip e)) = some w →
        w.resetCode = none →
        ∃ d, (reset_password hashFn now3 S e c npw).1 = .error ⟨400, d⟩) := by
  refine ⟨?_, ?_, ?_⟩
  · intro u hu w hw
    simp only [reset_password, hu] at h
    split at h
    · simp at h
    · split at h
      · simp at h
      · split at h
        · simp at h
        · split at h
          · simp at h
          · split at h
            · simp at h
            · have h2 := congrArg Prod.snd h
              simp only at h2
              rw [← h2] at hw
              rw [find?_updateFirst (fun v => v.id == u.id)
                (fun v => { v with password := some (hashFn np),
                                   resetCode := none,
                                   resetCodeExpires := none })
                (fun x hx => by simpa using hx) users] at hw
              rcases hmap : users.find? (fun v => v.id == u.id) with _ | v
              · rw [hmap] at hw; cases hw
              · rw [hmap] at hw
                simp at hw
                subst hw
                exact ⟨rfl, rfl, rfl⟩
  · intro S e c w hw hnone
    by_cases hec : ((pyStrip (pyLower e)).isEmpty || (pyStrip c).isEmpty) = true
    · exact ⟨"Email and code are required", by simp [verify_reset_code, hec]⟩
    · refine ⟨"Invalid reset code", ?_⟩
      simp [verify_reset_code, hec, hw, hnone, pyTruthy]
  · intro S e c npw w hw hnone
    by_cases h1 : ((pyStrip e).isEmpty || (pyStrip c).isEmpty || npw.isEmpty) = true
    · exact ⟨"Email, code, and new password are required",
        by simp [reset_password, h1]⟩
    · by_cases h2 : npw.length < 6
      · exact ⟨"Password must be at least 6 characters",
          by simp [reset_password, h1, h2]⟩
      · exact ⟨"Invalid reset code",
          by simp [reset_password, h1, h2, hw, hnone, pyTruthy]⟩

/-- Witness for C4: Erin resets with code `123456`; replaying the code
against the updated store fails with 400 on both endpoints. -/
theorem reset_code_single_use_witness :
    reset_password sampleHash 50 [erin] "erin@club.com" "123456" "newpw77" =
      (.ok "Password reset successfully", [erinAfter])
    ∧ [erinAfter].find?
        (fun v => v.email == pyStrip (pyLower "erin@club.com")) = some erinAfter
    ∧ erinAfter.resetCode = none
    ∧ (∃ d, verify_reset_code 55 [erinAfter] "erin@club.com" "123456" =
        .error ⟨400, d⟩)
    ∧ (∃ d, (reset_password sampleHash 55 [erinAfter] "erin@club.com" "123456"
        "newpw88").1 = .error ⟨400, d⟩) :=
  ⟨rfl, by decide, rfl,
   (reset_code_single_use sampleHash 50 55 55 [erin] [erinAfter]
      "erin@club.com" "123456" "newpw77" "Password reset successfully"
      rfl).2.1 [erinAfter] "erin@club.com" "123456" erinAfter
     (by decide) rfl,
   (reset_code_single_use sampleHash 50 55 55 [erin] [erinAfter]
      "erin@club.com" "123456" "newpw77" "Password reset successfully"
      rfl).2.2 [erinAfter] "erin@club.com" "123456" "newpw88" erinAfter
     (by decide) rfl⟩

/-! ### C5: self-deletion and superuser deletion are always refused -/

/-- C5.  A superuser's delete-user request targeting their own account or
any superuser account always fails with a 400 (`ValidationError` family)
and leaves the user store unchanged.  (The dedicated self-deletion check
compares a `str` with an `ObjectId` and never fires, but a self-target is
necessarily a superuser, so the superuser guard blocks it.) -/
theorem delete_user_guards (caller t : UserRec) (users : List UserRec)
    (tid : String)
    (hrole : caller.role = "superuser")
    (hvalid : isValidObjectIdHex tid = true)
    (hcaller : users.find?
      (fun v => objectIdStr v.id == objectIdStr caller.id) = some caller)
    (ht : users.find? (fun v => objectIdStr v.id == tid) = some t)
    (hguard : t.id = caller.id ∨ t.role = "superuser") :
    delete_user caller tid users =
      (.error ⟨400, "Cannot delete superuser accounts"⟩, users) := by
  have hg : superGuardFails caller = false := by
    simp [superGuardFails, hrole]
  have htrole : t.role = "superuser" := by
    rcases hguard with hid | hr
    · have hp := List.find?_some ht
      have htid : objectIdStr t.id = tid := by simpa using hp
      rw [← htid, hid] at ht
      have := ht.symm.trans hcaller
      simp only [Option.some.injEq] at this
      rw [this, hrole]
    · exact hr
  simp [delete_user, hg, hvalid, ht, pyStrEqObjectId, htrole]

/-- Witness for C5: Dave (superuser) tries to delete his own account — the
target is himself, a superuser — and the store is untouched. -/
theorem delete_user_guards_witness :
    dave.role = "superuser"
    ∧ isValidObjectIdHex "fedcba9876543210fedcba98" = true
    ∧ [dave].find? (fun v => objectIdStr v.id == "fedcba9876543210fedcba98") =
        some dave
    ∧ delete_user dave "fedcba9876543210fedcba98" [dave] =
        (.error ⟨400, "Cannot delete superuser accounts"⟩, [dave]) :=
  ⟨rfl, by decide, by decide,
   delete_user_guards dave dave [dave] "fedcba9876543210fedcba98"
     rfl (by decide) (by decide) (by decide) (Or.inl rfl)⟩

/-! ### C6: default course must exist and be assigned to the target -/

/-- C6.  A set-default-course request carrying a non-null (truthy) course
identifier is accepted only when that course exists in the course store and
is in the target user's assigned course set — on success the target's
`defaultCourseId` is updated to it — and every rejected request leaves the
user store unchanged. -/
theorem set_default_course_validated (caller : UserRec) (tid dcid : String)
    (courses : List CourseRec) (users : List UserRec)
    (hdc : dcid.isEmpty = false) :
    (∀ msg users',
      set_default_course caller tid (some dcid) courses users = (.ok msg, users') →
      (courses.find? (fun c => objectIdStr c.id == dcid)).isSome = true
      ∧ ∃ t, users.find? (fun v => objectIdStr v.id == tid) = some t
          ∧ dcid ∈ t.courseIds
          ∧ users' = updateFirst (fun v => objectIdStr v.id == tid)
              (fun v => { v with defaultCourseId := some dcid }) users)
    ∧ (∀ e users',
        set_default_course caller tid (some dcid) courses users = (.error e, users') →
        users' = users) := by
  have hpt : pyTruthy (some dcid) = true := by simp [pyTruthy, hdc]
  constructor
  · intro msg users' h
    unfold set_default_course at h
    simp only [hpt, if_true] at h
    split at h
    · simp at h
    · split at h
      · simp at h
      · split at h
        · simp at h
        · rename_i c hc
          split at h
          · simp at h
          · split at h
            · simp at h
            · rename_i t ht
              split at h
              · simp at h
              · rename_i hcont
                have h2 := (Prod.ext_iff.mp h).2
                have hmem : dcid ∈ t.courseIds := by
                  have hb : t.courseIds.contains dcid = true := by
                    revert hcont
                    cases t.courseIds.contains dcid <;> simp
                  simpa using hb
                exact ⟨by rw [hc]; rfl, t, ht, hmem, h2.symm⟩
  · intro e users' h
    unfold set_default_course at h
    simp only [hpt, if_true] at h
    split at h
    · exact (Prod.ext_iff.mp h).2.symm
    · split at h
      · exact (Prod.ext_iff.mp h).2.symm
      · split at h
        · exact (Prod.ext_iff.mp h).2.symm
        · split at h
          · exact (Prod.ext_iff.mp h).2.symm
          · split at h
            · exact (Prod.ext_iff.mp h).2.symm
            · split at h
              · exact (Prod.ext_iff.mp h).2.symm
              · simp at h

/-- Witness for C6: Dave sets Frank's default course to course A, which
exists and is assigned to Frank; the call is accepted and the theorem
recovers the two validated conditions. -/
theorem set_default_course_validated_witness :
    courseIdA.isEmpty = false
    ∧ set_default_course dave "ffffffffffffffffffffffff" (some courseIdA)
        [courseA] [frank] =
        (.ok "Default course updated successfully",
         [{ frank with defaultCourseId := some courseIdA }])
    ∧ (([courseA].find? (fun c => objectIdStr c.id == courseIdA)).isSome = true
       ∧ ∃ t, [frank].find?
            (fun v => objectIdStr v.id == "ffffffffffffffffffffffff") = some t
          ∧ courseIdA ∈ t.courseIds
          ∧ [{ frank with defaultCourseId := some courseIdA }] =
              updateFirst (fun v => objectIdStr v.id == "ffffffffffffffffffffffff")
                (fun v => { v with defaultCourseId := some courseIdA }) [frank]) :=
  ⟨by decide, rfl,
   (set_default_course_validated dave "ffffffffffffffffffffffff" courseIdA
      [courseA] [frank] (by decide)).1
     "Default course updated successfully"
     [{ frank with defaultCourseId := some courseIdA }] rfl⟩

/-! ### C8: role validation — dedicated endpoint only -/

/-- The `$set` of `update_user` never touches the `_id` field. -/
theorem applyUserUpdate_id (hashFn : String → String) (d : UserUpdate)
    (u : UserRec) : (applyUserUpdate hashFn d u).id = u.id := by
  obtain ⟨n, e, ro, cs, st, pw⟩ := d
  cases n <;> cases e <;> cases ro <;> cases cs <;> cases st <;> cases pw <;>
    simp [applyUserUpdate, apply_ite]

/-- When the update dict carries a role, `update_user` stores it verbatim. -/
theorem applyUserUpdate_role (hashFn : String → String) (d : UserUpdate)
    (u : UserRec) (r : String) (hdr : d.role = some r) :
    (applyUserUpdate hashFn d u).role = r := by
  obtain ⟨n, e, ro, cs, st, pw⟩ := d
  simp only at hdr
  subst hdr
  cases n <;> cases e <;> cases cs <;> cases st <;> cases pw <;>
    simp [applyUserUpdate, apply_ite]

/-- C8 counterexample: the general user-update endpoint accepts the
non-enum role `"hacker"` — the call succeeds and the stored role becomes
`"hacker"` — so not every role-setting operation is enum-constrained. -/
theorem role_update_unvalidated_counterexample :
    validRoles.contains "hacker" = false
    ∧ update_user sampleHash dave "ffffffffffffffffffffffff"
        { role := some "hacker" } [frank] =
        (.ok "User updated successfully", [{ frank with role := "hacker" }]) :=
  ⟨by decide, rfl⟩

/-- C8 amended: the dedicated role-update endpoint constrains the new role
to the five-member enum — any other value is rejected with a 400
`Invalid role` error and the store is unchanged, while an enum value is
stored — but the general user-update endpoint performs no role validation
and stores any supplied role string verbatim on the target record. -/
theorem role_update_validation (hashFn : String → String)
    (caller t : UserRec) (tid r : String)
    (users : List UserRec) (data : UserUpdate)
    (hrole : caller.role = "superuser")
    (hvalid : isValidObjectIdHex tid = true)
    (ht : users.find? (fun v => objectIdStr v.id == tid) = some t) :
    (roleOk (some r) = false →
      update_user_role caller tid (some r) users =
        (.error ⟨400, "Invalid role"⟩, users))
    ∧ (roleOk (some r) = true →
        update_user_role caller tid (some r) users =
          (.ok "Role updated successfully",
           updateFirst (fun v => objectIdStr v.id == tid)
             (fun v => { v with role := r }) users))
    ∧ (data.role = some r → data.email = none →
        update_user hashFn caller tid data users =
          (.ok "User updated successfully",
           updateFirst (fun v => objectIdStr v.id == tid)
             (applyUserUpdate hashFn data) users)
        ∧ ∀ w, (updateFirst (fun v => objectIdStr v.id == tid)
              (applyUserUpdate hashFn data) users).find?
              (fun v => objectIdStr v.id == tid) = some w →
            w.role = r) := by
  have hg : superGuardFails caller = false := by
    simp [superGuardFails, hrole]
  refine ⟨?_, ?_, ?_⟩
  · intro hro
    simp [update_user_role, hg, hro]
  · intro hro
    simp [update_user_role, hg, hro, hvalid, ht]
  · intro hdr hde
    constructor
    · simp [update_user, hg, hvalid, ht, hde]
    · intro w hw
      rw [find?_updateFirst (fun v => objectIdStr v.id == tid)
        (applyUserUpdate hashFn data)
        (fun x hx => by
          simpa [objectIdStr, applyUserUpdate_id hashFn data x] using hx)
        users, ht] at hw
      simp only [Option.map_some', Option.some.injEq] at hw
      rw [← hw]
      exact applyUserUpdate_role hashFn data t r hdr

/-- Witness for C8 (amended): the dedicated endpoint rejects `"hacker"`
with a 400 for Frank, and a general update carrying role `"chef"` stores it
verbatim. -/
theorem role_update_validation_witness :
    dave.role = "superuser"
    ∧ isValidObjectIdHex "ffffffffffffffffffffffff" = true
    ∧ [frank].find?
        (fun v => objectIdStr v.id == "ffffffffffffffffffffffff") = some frank
    ∧ update_user_role dave "ffffffffffffffffffffffff" (some "hacker") [frank] =
        (.error ⟨400, "Invalid role"⟩, [frank])
    ∧ (update_user sampleHash dave "ffffffffffffffffffffffff"
          { role := some "chef" } [frank] =
        (.ok "User updated successfully",
         updateFirst (fun v => objectIdStr v.id == "ffffffffffffffffffffffff")
           (applyUserUpdate sampleHash { role := some "chef" }) [frank])
       ∧ ∀ w, (updateFirst (fun v => objectIdStr v.id == "ffffffffffffffffffffffff")
             (applyUserUpdate sampleHash { role := some "chef" }) [frank]).find?
             (fun v => objectIdStr v.id == "ffffffffffffffffffffffff") = some w →
           w.role = "chef") :=
  ⟨rfl, by decide, by decide,
   (role_update_validation sampleHash dave frank "ffffffffffffffffffffffff"
      "hacker" [frank] { role := some "hacker" }
      rfl (by decide) (by decide)).1 (by decide),
   (role_update_validation sampleHash dave frank "ffffffffffffffffffffffff"
      "chef" [frank] { role := some "chef" }
      rfl (by decide) (by decide)).2.2 rfl rfl⟩

/-! ### C9: registration duplicate check is case-sensitive -/

/-- C9 counterexample: with `alice@club.com` registered, registering
`Alice@club.com` — the same address up to letter case — is accepted and a
second user document is inserted, instead of failing with the 400
duplicate-email error. -/
theorem register_case_counterexample :
    ciEq "Alice@club.com" "alice@club.com" = true
    ∧ (register sampleHash 9 oidB [alice]
        { email := "Alice@club.com", password := "pw9", name := "Alice C" }).1 =
      .ok { message := "Registration submitted. Your account is pending approval by the administrator.",
            userId := objectIdStr oidB, status := "pending" }
    ∧ (register sampleHash 9 oidB [alice]
        { email := "Alice@club.com", password := "pw9", name := "Alice C" }).2.length = 2 :=
  ⟨by decide, rfl, rfl⟩

/-- C9 amended: the registration duplicate check is an exact,
case-sensitive string match — registration fails with the 400
duplicate-email error and inserts nothing exactly when some stored user's
email is literally equal to the submitted one; otherwise (an email
differing only in letter case included) a new pending user record is
appended. -/
theorem register_exact_match_uniqueness (hashFn : String → String)
    (now : Nat) (newId : ObjectId) (users : List UserRec)
    (input : UserRegister) :
    ((users.find? (fun u => u.email == input.email)).isSome = true →
      register hashFn now newId users input =
        (.error ⟨400, "Email already registered"⟩, users))
    ∧ ((users.find? (fun u => u.email == input.email)).isSome = false →
        register hashFn now newId users input =
          (.ok { message := "Registration submitted. Your account is pending approval by the administrator.",
                 userId := objectIdStr newId, status := "pending" },
           users ++ [registeredUser hashFn now newId input])) := by
  constructor <;> intro h <;> simp [register, h]

/-- Witness for C9 (amended): the exact-match lookup misses
`Alice@club.com`, so the case-variant registration goes through. -/
theorem register_exact_match_uniqueness_witness :
    ([alice].find?
      (fun u => u.email == ("Alice@club.com" : String))).isSome = false
    ∧ register sampleHash 9 oidB [alice]
        { email := "Alice@club.com", password := "pw9", name := "Alice C" } =
        (.ok { message := "Registration submitted. Your account is pending approval by the administrator.",
               userId := objectIdStr oidB, status := "pending" },
         [alice] ++ [registeredUser sampleHash 9 oidB
           { email := "Alice@club.com", password := "pw9", name := "Alice C" }]) :=
  ⟨by decide,
   (register_exact_match_uniqueness sampleHash 9 oidB [alice]
      { email := "Alice@club.com", password := "pw9", name := "Alice C" }).2
     (by decide)⟩

/-! ### C3: forgot-password responses are not uniform -/

/-- C3: with e-mail delivery unavailable, the forgot-password response for
an existing account carries `email_sent := false` and the raw reset code
itself, while the unknown-email response is a bare generic message — the
two response bodies differ in shape and content (only the 200 success
status is shared), contradicting the uniform-response requirement. -/
theorem forgot_password_response_leak :
    forgot_password false "123456" 0 [alice] "alice@club.com" =
      (.ok { message := "Email service not configured. Use this code to reset your password.",
             email_sent := some false, reset_code := some "123456" },
       [{ alice with resetCode := some "123456", resetCodeExpires := some 15 }])
    ∧ forgot_password false "123456" 0 [alice] "missing@club.com" =
      (.ok { message := "If an account with this email exists, a reset code has been sent" },
       [alice])
    ∧ ({ message := "Email service not configured. Use this code to reset your password.",
         email_sent := some false, reset_code := some "123456" } : ForgotResponse) ≠
      { message := "If an account with this email exists, a reset code has been sent" } :=
  ⟨rfl, rfl, by decide⟩

end FairwayFoods
